import Mathlib

/-!
Verification development for the Debian Package Tracking System (PTS)
repository: the email control-command interpreter (pts.control) and the
message dispatch/classification pipeline (pts.vendor / pts.dispatch).

The repository ships only the test suites for these components
(pts/control/tests, pts/vendor/tests.py); the implementations
(pts/control/process.py, pts/control/models.py, pts/dispatch,
pts/vendor/debian/rules.py) are not part of the sources at hand, so the
definitions below are modelled from the specification's description of
the components, with the behaviour pinned down by the repository's own
tests.  Email bodies are modelled as strings split into lines; outgoing
mail bodies and response bodies are modelled as lists of lines.
-/

namespace PTS

/-- True for the whitespace characters stripped from command lines. -/
def isSpaceChar (c : Char) : Bool := c = ' ' || c = '\t' || c = '\n' || c = '\r'

/-- Strips leading and trailing whitespace from a character list. -/
def trimChars (l : List Char) : List Char :=
  ((l.dropWhile isSpaceChar).reverse.dropWhile isSpaceChar).reverse

/-- Strips leading and trailing whitespace from a string. -/
def strTrim (s : String) : String := ⟨trimChars s.data⟩

/-- True when the string has no characters. -/
def strIsEmpty (s : String) : Bool := s.data.isEmpty

/-- True when `pre` is a prefix of `s`. -/
def strStartsWith (s pre : String) : Bool := pre.data.isPrefixOf s.data

/-- True when `suf` is a suffix of `s`. -/
def strEndsWith (s suf : String) : Bool := suf.data.isSuffixOf s.data

/-- Splits a character list on a separator character; the separators
are dropped and empty chunks are kept. -/
def splitOnChar (sep : Char) : List Char → List (List Char)
  | [] => [[]]
  | c :: rest =>
    let r := splitOnChar sep rest
    if c = sep then [] :: r
    else
      match r with
      | [] => [[c]]
      | w :: ws => (c :: w) :: ws

/-- The lines of a string, split on the newline character. -/
def strLines (s : String) : List String :=
  (splitOnChar '\n' s.data).map (fun w => (⟨w⟩ : String))

/-- Modelled from the spec: the control bot's own email address
(pts.control.tests.common.CONTROL_EMAIL_ADDRESS, not in the sources).
The concrete value is irrelevant to the claims. -/
def CONTROL_EMAIL_ADDRESS : String := "control@packages.qa.debian.org"

/-- Modelled from the spec: the settings value
PTS_CONFIRMATION_EXPIRATION_DAYS (the Django settings module is not in
the sources).  The concrete value is irrelevant to the claims, which
treat it symbolically. -/
def PTS_CONFIRMATION_EXPIRATION_DAYS : Nat := 3

/-- Commands recognized by the control bot.  A subscribe or unsubscribe
command is stored in normalized form: the email address is already
filled in from the From header when it was omitted on the line. -/
inductive Command where
  | subscribe (package : String) (email : String)
  | unsubscribe (package : String) (email : String)
  | confirm (key : String)
  | help
  | quit
deriving DecidableEq, Repr

/-- Whitespace-separated tokens of a command line. -/
def splitTokens (s : String) : List String :=
  ((splitOnChar ' ' s.data).filter (fun w => ¬ w.isEmpty)).map
    (fun w => (⟨w⟩ : String))

/-- Modelled from the spec: parsing of a single (already trimmed)
command line into a command, with the handful of recognized verbs
(subscribe, unsubscribe, confirm, help, quit/thanks).  A subscribe or
unsubscribe line without an email address uses the From address of the
message (pts/control/process.py is not in the sources). -/
def parseCommand (fromEmail : String) (line : String) : Option Command :=
  match splitTokens line with
  | ["subscribe", pkg] => some (Command.subscribe pkg fromEmail)
  | ["subscribe", pkg, email] => some (Command.subscribe pkg email)
  | ["unsubscribe", pkg] => some (Command.unsubscribe pkg fromEmail)
  | ["unsubscribe", pkg, email] => some (Command.unsubscribe pkg email)
  | ["confirm", key] => some (Command.confirm key)
  | ["help"] => some Command.help
  | ["thanks"] => some Command.quit
  | ["quit"] => some Command.quit
  | _ => none

/-- A line accepted by the scanner: its trimmed source text, and the
parsed command (none for a comment line starting with '#'). -/
structure Entry where
  text : String
  cmd : Option Command
deriving DecidableEq, Repr

/-- Modelled from the spec: the control bot's line scanner
(pts/control/process.py is not in the sources).  Blank lines are
skipped, comment lines (starting with '#') and command lines are kept,
a quit/thanks line stops the scan, and a fifth garbage line (a
non-blank line that is neither a comment nor a recognized command)
stops the scan.  The counter `g` is the number of garbage lines seen so
far. -/
def scanLines (fromEmail : String) : List String → Nat → List Entry
  | [], _ => []
  | l :: rest, g =>
    let s := strTrim l
    if strIsEmpty s then scanLines fromEmail rest g
    else if strStartsWith s "#" then ⟨s, none⟩ :: scanLines fromEmail rest g
    else
      match parseCommand fromEmail s with
      | none => if 5 ≤ g + 1 then [] else scanLines fromEmail rest (g + 1)
      | some c =>
        if c = Command.quit then [⟨s, some c⟩]
        else ⟨s, some c⟩ :: scanLines fromEmail rest g

/-- True exactly when the scanner, run on these lines with garbage
counter `g`, stops because it encountered its fifth garbage line. -/
def scanStopsGarbage (fromEmail : String) : List String → Nat → Bool
  | [], _ => false
  | l :: rest, g =>
    let s := strTrim l
    if strIsEmpty s then scanStopsGarbage fromEmail rest g
    else if strStartsWith s "#" then scanStopsGarbage fromEmail rest g
    else
      match parseCommand fromEmail s with
      | none => if 5 ≤ g + 1 then true else scanStopsGarbage fromEmail rest (g + 1)
      | some c =>
        if c = Command.quit then false
        else scanStopsGarbage fromEmail rest g

/-- True exactly when the scanner stops before exhausting the lines,
whether on a quit/thanks line or on the fifth garbage line. -/
def scanHalts (fromEmail : String) : List String → Nat → Bool
  | [], _ => false
  | l :: rest, g =>
    let s := strTrim l
    if strIsEmpty s then scanHalts fromEmail rest g
    else if strStartsWith s "#" then scanHalts fromEmail rest g
    else
      match parseCommand fromEmail s with
      | none => if 5 ≤ g + 1 then true else scanHalts fromEmail rest (g + 1)
      | some c =>
        if c = Command.quit then true
        else scanHalts fromEmail rest g

/-- A line is a valid command or comment line for the given sender:
non-blank and either a comment or a recognized command.  This is the
line-local notion, independent of where in the message the line
occurs. -/
def isCommandOrCommentLine (fromEmail : String) (l : String) : Bool :=
  let s := strTrim l
  !(strIsEmpty s) && (strStartsWith s "#" || (parseCommand fromEmail s).isSome)

/-- Modelled from the spec: a pending confirmation
(pts.control.models.CommandConfirmation, not in the sources).  The
command the confirmation stands for is kept in parsed, normalized form;
dates are counted in whole days. -/
structure CommandConfirmation where
  key : String
  action : Command
  dateCreated : Nat
deriving DecidableEq, Repr

/-- The persistent state the control bot operates on: the package
database, the subscription list and the pending confirmations, plus a
counter for fresh confirmation keys and the current date in days. -/
structure PTSState where
  sourcePackages : List String
  binaryPackages : List (String × String)
  subscriptions : List (String × String)
  confirmations : List CommandConfirmation
  nextKeyId : Nat
  today : Nat
deriving DecidableEq, Repr

/-- Fresh confirmation keys, one per counter value. -/
def newKey (n : Nat) : String := "key-" ++ toString n

/-- An outgoing mail sent while executing commands (a confirmation
mail); the body is a list of lines. -/
structure OutMail where
  recipient : String
  body : List String
deriving DecidableEq, Repr

/-- Body of a confirmation mail: it carries the confirmation key on a
line of the form 'CONFIRM key'. -/
def confirmationMailBody (key : String) : List String :=
  ["Please confirm the command by replying with the following line:",
   "",
   "CONFIRM " ++ key]

/-- Creates a pending confirmation for the given command, sends the
confirmation mail to the given address and reports this in the
response. -/
def addConfirmation (st : PTSState) (c : Command) (email : String) :
    PTSState × List OutMail × List String :=
  let key := newKey st.nextKeyId
  ({ st with
      confirmations := ⟨key, c, st.today⟩ :: st.confirmations,
      nextKeyId := st.nextKeyId + 1 },
   [⟨email, confirmationMailBody key⟩],
   ["A confirmation mail has been sent to " ++ email])

/-- Modelled from the spec: execution of a subscribe command
(pts/control/commands .py machinery is not in the sources).  A
subscription is never created directly: for an existing source package
a confirmation is created and mailed; a binary package is resolved to
its source package with a warning; an unknown package is reported. -/
def execSubscribe (st : PTSState) (p e : String) :
    PTSState × List OutMail × List String :=
  if (p, e) ∈ st.subscriptions then
    (st, [], [e ++ " is already subscribed to " ++ p])
  else if p ∈ st.sourcePackages then
    addConfirmation st (Command.subscribe p e) e
  else
    match st.binaryPackages.find? (fun bp => bp.1 = p) with
    | some bp =>
      let src := bp.2
      let warn := ["Warning: " ++ p ++ " is not a source package.",
                   src ++ " is the source package for the " ++ p ++
                     " binary package"]
      if (src, e) ∈ st.subscriptions then
        (st, [], warn ++ [e ++ " is already subscribed to " ++ src])
      else
        let r := addConfirmation st (Command.subscribe src e) e
        (r.1, r.2.1, warn ++ r.2.2)
    | none =>
      (st, [], [p ++ " is neither a source package nor a binary package."])

/-- Modelled from the spec: execution of an unsubscribe command, also
through the confirmation workflow. -/
def execUnsubscribe (st : PTSState) (p e : String) :
    PTSState × List OutMail × List String :=
  if (p, e) ∈ st.subscriptions then
    addConfirmation st (Command.unsubscribe p e) e
  else
    (st, [], [e ++ " is not subscribed to " ++ p])

/-- Runs the command stored in a confirmed confirmation: only now is
the subscription actually created (or removed). -/
def runConfirmedCommand (st : PTSState) (c : Command) :
    PTSState × List String :=
  match c with
  | Command.subscribe p e =>
    if (p, e) ∈ st.subscriptions then
      (st, [e ++ " is already subscribed to " ++ p])
    else
      ({ st with subscriptions := (p, e) :: st.subscriptions },
       [e ++ " has been subscribed to " ++ p])
  | Command.unsubscribe p e =>
    ({ st with subscriptions := st.subscriptions.filter (fun s => s ≠ (p, e)) },
     [e ++ " has been unsubscribed from " ++ p])
  | _ => (st, ["Confirmation failed"])

/-- Modelled from the spec: execution of a confirm command with an
expiring token (pts.control.models.CommandConfirmation semantics, not
in the sources).  A key that matches no pending confirmation, or one
whose creation date lies more than PTS_CONFIRMATION_EXPIRATION_DAYS
days in the past, fails without touching the subscription state. -/
def execConfirm (st : PTSState) (key : String) :
    PTSState × List OutMail × List String :=
  match st.confirmations.find? (fun c2 => c2.key == key) with
  | none => (st, [], ["Confirmation failed"])
  | some conf =>
    if conf.dateCreated + PTS_CONFIRMATION_EXPIRATION_DAYS < st.today then
      (st, [], ["Confirmation failed"])
    else
      let st2 := { st with
        confirmations := st.confirmations.filter (fun c2 => c2.key ≠ key) }
      let r := runConfirmedCommand st2 conf.action
      (r.1, [], r.2)

/-- Executes a single command against the state, returning the new
state, the confirmation mails sent and the response output lines. -/
def execCommand (st : PTSState) (c : Command) :
    PTSState × List OutMail × List String :=
  match c with
  | Command.subscribe p e => execSubscribe st p e
  | Command.unsubscribe p e => execUnsubscribe st p e
  | Command.confirm key => execConfirm st key
  | Command.help => (st, [], ["Here is the list of the commands the bot accepts"])
  | Command.quit => (st, [], [])

/-- Result of running the scanned entries: the new state, the
confirmation mails, the response output lines (each processed line
echoed with '>' followed by the output of its command) and the list of
commands actually executed. -/
structure RunResult where
  state : PTSState
  mails : List OutMail
  output : List String
  executed : List Command
deriving Repr

/-- Modelled from the spec: the command runner.  Every processed line
is echoed, stripped of surrounding whitespace and prepended with '>';
a command equal (after normalization) to one already executed in the
same message is echoed but not executed again. -/
def runEntries (st : PTSState) (seen : List Command) :
    List Entry → RunResult
  | [] => ⟨st, [], [], []⟩
  | entry :: rest =>
    let echo := ">" ++ entry.text
    match entry.cmd with
    | none =>
      let r := runEntries st seen rest
      ⟨r.state, r.mails, echo :: r.output, r.executed⟩
    | some c =>
      if c ∈ seen then
        let r := runEntries st seen rest
        ⟨r.state, r.mails, echo :: r.output, r.executed⟩
      else
        let x := execCommand st c
        let r := runEntries x.1 (c :: seen) rest
        ⟨r.state, x.2.1 ++ r.mails,
         echo :: (x.2.2 ++ r.output), c :: r.executed⟩

/-- Result of processing one incoming control message. -/
structure ProcResult where
  state : PTSState
  mails : List OutMail
  response : Option (List String)
  executed : List Command
deriving Repr

/-- Runs the scanned entries; when no line at all was processed as a
command or comment, no response is sent. -/
def processEntries (st : PTSState) (entries : List Entry) : ProcResult :=
  if entries.isEmpty then ⟨st, [], none, []⟩
  else
    let r := runEntries st [] entries
    ⟨r.state, r.mails, some r.output, r.executed⟩

/-- Processes the lines of a control message body. -/
def processLines (fromEmail : String) (st : PTSState)
    (lines : List String) : ProcResult :=
  processEntries st (scanLines fromEmail lines 0)

/-- The payload of an incoming message: either a plain-text body or a
multipart message given as a list of (main type, subtype, content)
parts. -/
inductive MessagePayload where
  | plaintext (body : String)
  | multipart (parts : List (String × String × String))
deriving DecidableEq, Repr

/-- An incoming control message: the email address extracted from the
From header, the X-Loop header if present, and the payload. -/
structure IncomingMessage where
  fromEmail : String
  xloop : Option String
  payload : MessagePayload
deriving DecidableEq, Repr

/-- Extracts the text the commands are read from: the body of a
plain-text message, or the first text/plain part of a multipart
message; none when the message has no text/plain content. -/
def commandBody : MessagePayload → Option String
  | MessagePayload.plaintext body => some body
  | MessagePayload.multipart parts =>
    (parts.find? (fun part => part.1 = "text" ∧ part.2.1 = "plain")).map
      (fun part => part.2.2)

/-- The lines of a message body. -/
def bodyLines (s : String) : List String := strLines s

/-- The warning response sent for a message with no text/plain content
(control/email-plaintext-warning.txt). -/
def plaintextWarning : List String :=
  ["Only plain text messages are accepted by the control bot."]

/-- Modelled from the spec: the top-level control bot entry point
(pts/control/process.py is not in the sources).  A message whose
X-Loop header is the control bot's own address gets no reply at all; a
message without text/plain content gets the plain-text warning;
otherwise the body is scanned line by line and a response is sent
exactly when at least one line was processed. -/
def controlProcess (msg : IncomingMessage) (st : PTSState) : ProcResult :=
  if msg.xloop = some CONTROL_EMAIL_ADDRESS then ⟨st, [], none, []⟩
  else
    match commandBody msg.payload with
    | none => ⟨st, [], some plaintextWarning, []⟩
    | some body => processLines msg.fromEmail st (bodyLines body)

/-- An inbound (non-control) message handled by the dispatch pipeline:
its headers as (name, value) pairs and its body as a list of lines. -/
structure DispatchMessage where
  headers : List (String × String)
  body : List String
deriving DecidableEq, Repr

/-- The value of the first header with the given name, if any. -/
def DispatchMessage.getHeader (m : DispatchMessage) (name : String) :
    Option String :=
  (m.headers.find? (fun h => h.1 = name)).map (fun h => h.2)

/-- True when the body lists a .dsc file (a line ending in '.dsc'). -/
def hasDscFile (body : List String) : Bool :=
  body.any (fun l => strEndsWith (strTrim l) ".dsc")

/-- Modelled from the spec: the Debian archive (X-DAK) part of the
vendor rule table (pts/vendor/debian/rules.py is not in the sources).
A message with an X-DAK header is an upload when its Subject starts
with 'Accepted' (a source upload when the body lists .dsc files, a
binary upload otherwise) and a general archive event otherwise. -/
def classifyDak (m : DispatchMessage) : Option String :=
  match m.getHeader "X-DAK" with
  | some _ =>
    match m.getHeader "Subject" with
    | some subj =>
      if strStartsWith subj "Accepted" then
        some (if hasDscFile m.body then "upload-source" else "upload-binary")
      else some "archive"
    | none => some "archive"
  | none => none

/-- Modelled from the spec: the vendor rule table mapping header
patterns to keywords (pts/vendor/debian/rules.py is not in the
sources).  A bug-tracker message (X-Debian-PR-Message present together
with X-Loop owner@bugs.debian.org) is 'bts-control' when the
X-Debian-PR-Message value starts with 'transcript' and 'bts'
otherwise; X-DAK messages are classified by `classifyDak`; any other
message gets no keyword from the rules. -/
def classifyMessage (m : DispatchMessage) : Option String :=
  match m.getHeader "X-Debian-PR-Message", m.getHeader "X-Loop" with
  | some pr, some loop =>
    if loop = "owner@bugs.debian.org" then
      some (if strStartsWith pr "transcript" then "bts-control" else "bts")
    else classifyDak m
  | _, _ => classifyDak m

/-- A subscription record used by the dispatch pipeline: the
subscriber's email, the package followed and the accepted keywords. -/
structure Subscriber where
  email : String
  package : String
  keywords : List String
deriving DecidableEq, Repr

/-- A copy of the message forwarded to one subscriber, with the
headers added by the dispatch pipeline appended. -/
structure ForwardedMail where
  recipient : String
  headers : List (String × String)
deriving DecidableEq, Repr

/-- Modelled from the spec: a message the rules leave with the default
keyword is only forwarded when it comes from a trusted source
(pts/vendor/debian/rules.py, not in the sources; the tests trust
Bugzilla via the X-Bugzilla-Product header). -/
def defaultTrusted (m : DispatchMessage) : Bool :=
  (m.getHeader "X-Bugzilla-Product").isSome

/-- The keyword the dispatch pipeline files the message under: the
vendor rules' keyword, or the default keyword for trusted senders. -/
def dispatchKeyword (m : DispatchMessage) : Option String :=
  match classifyMessage m with
  | some kw => some kw
  | none => if defaultTrusted m then some "default" else none

/-- Modelled from the spec: the dispatch forwarding step
(pts/dispatch, not in the sources).  The message is forwarded, tagged
with an X-PTS-Keyword header equal to the assigned keyword, to exactly
the subscribers of the package who accept that keyword. -/
def runDispatch (m : DispatchMessage) (package : String)
    (subs : List Subscriber) : List ForwardedMail :=
  match dispatchKeyword m with
  | none => []
  | some kw =>
    (subs.filter (fun s => s.package = package ∧ kw ∈ s.keywords)).map
      (fun s => ⟨s.email, m.headers ++ [("X-PTS-Keyword", kw)]⟩)

/-- When scanning a prefix already stops on its fifth garbage line,
appending further lines does not change the scanned entries. -/
theorem scanLines_append_of_stopsGarbage (f : String) (post : List String) :
    ∀ (pre : List String) (g : Nat), scanStopsGarbage f pre g = true →
      scanLines f (pre ++ post) g = scanLines f pre g := by
  intro pre
  induction pre with
  | nil => intro g h; simp [scanStopsGarbage] at h
  | cons l rest ih =>
    intro g h
    rw [List.cons_append]
    by_cases h1 : strIsEmpty (strTrim l)
    · simp only [scanLines, scanStopsGarbage, h1, if_true] at h ⊢
      exact ih g h
    · by_cases h2 : strStartsWith (strTrim l) "#"
      · simp only [scanLines, scanStopsGarbage, h1, h2, Bool.false_eq_true,
          if_false, if_true] at h ⊢
        rw [ih g h]
      · rcases hp : parseCommand f (strTrim l) with _ | c
        · by_cases h3 : 5 ≤ g + 1
          · simp [scanLines, h1, h2, hp, h3]
          · simp only [scanLines, scanStopsGarbage, h1, h2, hp, h3,
              Bool.false_eq_true, if_false] at h ⊢
            exact ih (g + 1) h
        · by_cases hq : c = Command.quit
          · subst hq
            simp [scanStopsGarbage, h1, h2, hp] at h
          · simp only [scanLines, scanStopsGarbage, h1, h2, hp, hq,
              Bool.false_eq_true, if_false] at h ⊢
            rw [ih g h]

/-- When scanning a prefix does not stop, a following quit/thanks line
is scanned (and stops the scan): lines after it contribute nothing. -/
theorem scanLines_append_quit (f : String) (l : String) (post : List String)
    (hne : strIsEmpty (strTrim l) = false) (hcm : strStartsWith (strTrim l) "#" = false)
    (hq : parseCommand f (strTrim l) = some Command.quit) :
    ∀ (pre : List String) (g : Nat), scanHalts f pre g = false →
      scanLines f (pre ++ l :: post) g =
        scanLines f pre g ++ [⟨strTrim l, some Command.quit⟩] := by
  intro pre
  induction pre with
  | nil =>
    intro g h
    simp [scanLines, hne, hcm, hq]
  | cons l2 rest ih =>
    intro g h
    rw [List.cons_append]
    by_cases h1 : strIsEmpty (strTrim l2)
    · simp only [scanLines, scanHalts, h1, if_true] at h ⊢
      exact ih g h
    · by_cases h2 : strStartsWith (strTrim l2) "#"
      · simp only [scanLines, scanHalts, h1, h2, Bool.false_eq_true,
          if_false, if_true] at h ⊢
        rw [ih g h, List.cons_append]
      · rcases hp : parseCommand f (strTrim l2) with _ | c
        · by_cases h3 : 5 ≤ g + 1
          · simp [scanHalts, h1, h2, hp, h3] at h
          · simp only [scanLines, scanHalts, h1, h2, hp, h3,
              Bool.false_eq_true, if_false] at h ⊢
            exact ih (g + 1) h
        · by_cases hq2 : c = Command.quit
          · subst hq2
            simp [scanHalts, h1, h2, hp] at h
          · simp only [scanLines, scanHalts, h1, h2, hp, hq2,
              Bool.false_eq_true, if_false] at h ⊢
            rw [ih g h, List.cons_append]

/-- Every scanned entry's text is the trimmed text of some line of the
message body. -/
theorem scanLines_text_mem (f : String) :
    ∀ (lines : List String) (g : Nat) (e : Entry),
      e ∈ scanLines f lines g → ∃ l ∈ lines, e.text = strTrim l := by
  intro lines
  induction lines with
  | nil => intro g e he; simp [scanLines] at he
  | cons l rest ih =>
    intro g e he
    by_cases h1 : strIsEmpty (strTrim l)
    · simp only [scanLines, h1, if_true] at he
      obtain ⟨l2, hl2, ht⟩ := ih g e he
      exact ⟨l2, List.mem_cons_of_mem _ hl2, ht⟩
    · by_cases h2 : strStartsWith (strTrim l) "#"
      · simp only [scanLines, h1, h2, Bool.false_eq_true, if_false,
          if_true] at he
        rcases List.mem_cons.mp he with rfl | he2
        · exact ⟨l, List.mem_cons_self _ _, rfl⟩
        · obtain ⟨l2, hl2, ht⟩ := ih g e he2
          exact ⟨l2, List.mem_cons_of_mem _ hl2, ht⟩
      · rcases hp : parseCommand f (strTrim l) with _ | c
        · by_cases h3 : 5 ≤ g + 1
          · simp [scanLines, h1, h2, hp, h3] at he
          · simp only [scanLines, h1, h2, hp, h3, Bool.false_eq_true,
              if_false] at he
            obtain ⟨l2, hl2, ht⟩ := ih (g + 1) e he
            exact ⟨l2, List.mem_cons_of_mem _ hl2, ht⟩
        · by_cases hq : c = Command.quit
          · subst hq
            simp only [scanLines, h1, h2, hp, Bool.false_eq_true, if_false,
              if_true, List.mem_singleton] at he
            exact ⟨l, List.mem_cons_self _ _, by rw [he]⟩
          · simp only [scanLines, h1, h2, hp, hq, Bool.false_eq_true,
              if_false] at he
            rcases List.mem_cons.mp he with rfl | he2
            · exact ⟨l, List.mem_cons_self _ _, rfl⟩
            · obtain ⟨l2, hl2, ht⟩ := ih g e he2
              exact ⟨l2, List.mem_cons_of_mem _ hl2, ht⟩

/-- Every entry handed to the runner is echoed in the response output,
as its trimmed text prepended with '>'. -/
theorem runEntries_echo_mem :
    ∀ (entries : List Entry) (st : PTSState) (seen : List Command)
      (e : Entry), e ∈ entries →
      (">" ++ e.text) ∈ (runEntries st seen entries).output := by
  intro entries
  induction entries with
  | nil => intro st seen e he; simp at he
  | cons entry rest ih =>
    intro st seen e he
    rcases List.mem_cons.mp he with heq | he2
    · rw [heq]
      rcases hc : entry.cmd with _ | c
      · simp [runEntries, hc]
      · by_cases hseen : c ∈ seen
        · simp [runEntries, hc, hseen]
        · simp [runEntries, hc, hseen]
    · rcases hc : entry.cmd with _ | c
      · simp only [runEntries, hc, List.mem_cons]
        exact Or.inr (ih _ _ e he2)
      · by_cases hseen : c ∈ seen
        · simp only [runEntries, hc, hseen, if_true, List.mem_cons]
          exact Or.inr (ih _ _ e he2)
        · simp only [runEntries, hc, hseen, Bool.false_eq_true, if_false,
            List.mem_cons, List.mem_append]
          exact Or.inr (Or.inr (ih _ _ e he2))

/-- A non-blank, non-comment line that parses to a command other than
quit/thanks is scanned as that command and scanning continues. -/
theorem scanLines_cons_cmd (f line : String) (rest : List String) (g : Nat)
    (c : Command) (hne : strIsEmpty (strTrim line) = false)
    (hcm : strStartsWith (strTrim line) "#" = false)
    (hp : parseCommand f (strTrim line) = some c) (hq : ¬ c = Command.quit) :
    scanLines f (line :: rest) g = ⟨strTrim line, some c⟩ :: scanLines f rest g := by
  simp [scanLines, hne, hcm, hp, hq]

/-- A message body consisting of a single command line is scanned as
exactly that command. -/
theorem scanLines_single_cmd (f line : String) (c : Command)
    (hne : strIsEmpty (strTrim line) = false)
    (hcm : strStartsWith (strTrim line) "#" = false)
    (hp : parseCommand f (strTrim line) = some c) (hq : ¬ c = Command.quit) :
    scanLines f [line] 0 = [⟨strTrim line, some c⟩] := by
  rw [scanLines_cons_cmd f line [] 0 c hne hcm hp hq]
  rfl

/-- C3: for every control message body, the line scanner stops
processing after encountering five garbage lines: when scanning a
prefix of the body stops on its fifth garbage line, every line after
it — an otherwise valid command or comment line included — is not
processed and not echoed, so processing the whole body equals
processing the prefix alone. -/
theorem garbage_cutoff_stops_processing (f : String) (st : PTSState)
    (pre post : List String) (h : scanStopsGarbage f pre 0 = true) :
    processLines f st (pre ++ post) = processLines f st pre := by
  unfold processLines
  rw [scanLines_append_of_stopsGarbage f post pre 0 h]

/-- C3 witness: five garbage lines after a valid help command cut off
a later comment line, exactly as in the repository's test. -/
theorem garbage_cutoff_stops_processing_witness :
    scanStopsGarbage "user@domain.com"
        ["help", "one", "two", "three", "four", "five"] 0 = true ∧
    processLines "user@domain.com" ⟨[], [], [], [], 0, 0⟩
        (["help", "one", "two", "three", "four", "five"] ++ ["#command"]) =
      processLines "user@domain.com" ⟨[], [], [], [], 0, 0⟩
        ["help", "one", "two", "three", "four", "five"] :=
  ⟨by decide,
   garbage_cutoff_stops_processing "user@domain.com" ⟨[], [], [], [], 0, 0⟩
     ["help", "one", "two", "three", "four", "five"] ["#command"] (by decide)⟩

/-- C4: processing of a control message body stops at the first
quit/thanks line: the lines before it are scanned and processed, the
terminator line itself is echoed, and no line after it is processed or
echoed. -/
theorem quit_stops_processing (f : String) (st : PTSState)
    (pre : List String) (l : String) (post : List String)
    (hhalt : scanHalts f pre 0 = false)
    (hne : strIsEmpty (strTrim l) = false) (hcm : strStartsWith (strTrim l) "#" = false)
    (hq : parseCommand f (strTrim l) = some Command.quit) :
    processLines f st (pre ++ l :: post) = processLines f st (pre ++ [l]) ∧
    scanLines f (pre ++ l :: post) 0 =
      scanLines f pre 0 ++ [⟨strTrim l, some Command.quit⟩] := by
  have h1 := scanLines_append_quit f l post hne hcm hq pre 0 hhalt
  have h2 := scanLines_append_quit f l [] hne hcm hq pre 0 hhalt
  refine ⟨?_, h1⟩
  unfold processLines
  rw [h1, h2]

/-- C4 witness: a thanks line after a comment cuts off a later comment
line, exactly as in the repository's test. -/
theorem quit_stops_processing_witness :
    scanHalts "user@domain.com" ["#hello"] 0 = false ∧
    (processLines "user@domain.com" ⟨[], [], [], [], 0, 0⟩
        (["#hello"] ++ "thanks" :: ["#command"]) =
      processLines "user@domain.com" ⟨[], [], [], [], 0, 0⟩
        (["#hello"] ++ ["thanks"]) ∧
    scanLines "user@domain.com" (["#hello"] ++ "thanks" :: ["#command"]) 0 =
      scanLines "user@domain.com" ["#hello"] 0 ++
        [⟨strTrim "thanks", some Command.quit⟩]) :=
  ⟨by decide,
   quit_stops_processing "user@domain.com" ⟨[], [], [], [], 0, 0⟩
     ["#hello"] "thanks" ["#command"] (by decide) (by decide) (by decide)
     (by decide)⟩

/-- C7: the control bot interprets the body line by line, and every
processed line — comment or recognized command, whether the body is a
plain-text message or the text/plain part of a multipart message —
appears in the reply stripped of surrounding whitespace and prepended
with '>'. -/
theorem processed_lines_echoed (msg : IncomingMessage) (st : PTSState)
    (body : String) (e : Entry)
    (hloop : ¬ msg.xloop = some CONTROL_EMAIL_ADDRESS)
    (hbody : commandBody msg.payload = some body)
    (he : e ∈ scanLines msg.fromEmail (bodyLines body) 0) :
    (∃ l ∈ bodyLines body, e.text = strTrim l) ∧
    ∃ out, (controlProcess msg st).response = some out ∧
      (">" ++ e.text) ∈ out := by
  refine ⟨scanLines_text_mem _ _ _ _ he, ?_⟩
  have hstep : controlProcess msg st =
      processLines msg.fromEmail st (bodyLines body) := by
    unfold controlProcess
    rw [if_neg hloop, hbody]
  have hne : (scanLines msg.fromEmail (bodyLines body) 0).isEmpty = false := by
    rcases hs : scanLines msg.fromEmail (bodyLines body) 0 with _ | ⟨x, xs⟩
    · rw [hs] at he; simp at he
    · rfl
  rw [hstep]
  unfold processLines processEntries
  simp only [hne, Bool.false_eq_true, if_false]
  exact ⟨_, rfl, runEntries_echo_mem _ _ _ _ he⟩

/-- C7 witness: a comment line inside the text/plain part of a
multipart message is echoed with '>' in the reply. -/
theorem processed_lines_echoed_witness :
    (¬ (some "other@domain.com" : Option String) =
        some CONTROL_EMAIL_ADDRESS) ∧
    commandBody (MessagePayload.multipart
        [("application", "octet-stream", "asdf"),
         ("text", "plain", "#command\nthanks")]) =
      some "#command\nthanks" ∧
    (⟨"#command", none⟩ : Entry) ∈
      scanLines "user@domain.com" (bodyLines "#command\nthanks") 0 ∧
    ((∃ l ∈ bodyLines "#command\nthanks", "#command" = strTrim l) ∧
     ∃ out,
       (controlProcess
           ⟨"user@domain.com", some "other@domain.com",
            MessagePayload.multipart
              [("application", "octet-stream", "asdf"),
               ("text", "plain", "#command\nthanks")]⟩
           ⟨[], [], [], [], 0, 0⟩).response = some out ∧
         (">" ++ "#command") ∈ out) :=
  ⟨by decide, by decide, by decide,
   processed_lines_echoed
     ⟨"user@domain.com", some "other@domain.com",
      MessagePayload.multipart
        [("application", "octet-stream", "asdf"),
         ("text", "plain", "#command\nthanks")]⟩
     ⟨[], [], [], [], 0, 0⟩ "#command\nthanks" ⟨"#command", none⟩
     (by decide) (by decide) (by decide)⟩

/-- C8: the control bot never replies to a message whose X-Loop header
equals the control bot's own email address: no response is produced, no
mail is sent and the state is untouched, whatever the body contains. -/
theorem xloop_no_response (msg : IncomingMessage) (st : PTSState)
    (h : msg.xloop = some CONTROL_EMAIL_ADDRESS) :
    (controlProcess msg st).response = none ∧
    (controlProcess msg st).mails = [] ∧
    (controlProcess msg st).state = st := by
  unfold controlProcess
  rw [if_pos h]
  exact ⟨rfl, rfl, rfl⟩

/-- C8 witness: a message with X-Loop set to the control address and a
body full of valid commands gets no reply. -/
theorem xloop_no_response_witness :
    (controlProcess
        ⟨"user@domain.com", some CONTROL_EMAIL_ADDRESS,
         MessagePayload.plaintext "#command\nthanks"⟩
        ⟨[], [], [], [], 0, 0⟩).response = none ∧
    (controlProcess
        ⟨"user@domain.com", some CONTROL_EMAIL_ADDRESS,
         MessagePayload.plaintext "#command\nthanks"⟩
        ⟨[], [], [], [], 0, 0⟩).mails = [] ∧
    (controlProcess
        ⟨"user@domain.com", some CONTROL_EMAIL_ADDRESS,
         MessagePayload.plaintext "#command\nthanks"⟩
        ⟨[], [], [], [], 0, 0⟩).state = ⟨[], [], [], [], 0, 0⟩ :=
  xloop_no_response
    ⟨"user@domain.com", some CONTROL_EMAIL_ADDRESS,
     MessagePayload.plaintext "#command\nthanks"⟩
    ⟨[], [], [], [], 0, 0⟩ rfl

/-- C9 counterexample: a body whose first five non-blank lines are
garbage followed by a valid comment line does contain a valid comment
line, yet the control bot sends no response, because the five-garbage
cutoff stops the scan before the comment is reached.  The claim's
if-and-only-if, with the right side read as a property of the body's
lines, is therefore false. -/
theorem response_iff_counterexample :
    (bodyLines "one\ntwo\nthree\nfour\nfive\n#command").any
        (isCommandOrCommentLine "user@domain.com") = true ∧
    (controlProcess
        ⟨"user@domain.com", none,
         MessagePayload.plaintext "one\ntwo\nthree\nfour\nfive\n#command"⟩
        ⟨[], [], [], [], 0, 0⟩).response = none := by
  constructor
  · decide
  · decide

/-- C9 (amended): for a message with a plain-text command body that is
not suppressed by the X-Loop rule, a response is sent if and only if at
least one line of the body is actually processed as a command or
comment line — the scanner yields at least one entry.  (A valid command
or comment line occurring after the fifth garbage line or after a
quit/thanks line is not processed and does not trigger a response; an
empty body or a body of unrecognized text alone produces no
response.) -/
theorem response_iff_processed_line (msg : IncomingMessage) (st : PTSState)
    (body : String)
    (hloop : ¬ msg.xloop = some CONTROL_EMAIL_ADDRESS)
    (hbody : commandBody msg.payload = some body) :
    (controlProcess msg st).response ≠ none ↔
      scanLines msg.fromEmail (bodyLines body) 0 ≠ [] := by
  have hstep : controlProcess msg st =
      processLines msg.fromEmail st (bodyLines body) := by
    unfold controlProcess
    rw [if_neg hloop, hbody]
  rw [hstep]
  unfold processLines processEntries
  rcases hs : scanLines msg.fromEmail (bodyLines body) 0 with _ | ⟨x, xs⟩
  · simp [hs]
  · simp [hs]

/-- C9 witness: a body consisting of unrecognized text alone yields no
entry and no response, while a single thanks line yields an entry and a
response. -/
theorem response_iff_processed_line_witness :
    (¬ (controlProcess
          ⟨"user@domain.com", none,
           MessagePayload.plaintext "Some text\nSome more text"⟩
          ⟨[], [], [], [], 0, 0⟩).response ≠ none) ∧
    ((controlProcess
        ⟨"user@domain.com", none, MessagePayload.plaintext "thanks"⟩
        ⟨[], [], [], [], 0, 0⟩).response ≠ none) :=
  ⟨fun hr => (by decide :
      ¬ scanLines "user@domain.com"
          (bodyLines "Some text\nSome more text") 0 ≠ [])
      ((response_iff_processed_line
        ⟨"user@domain.com", none,
         MessagePayload.plaintext "Some text\nSome more text"⟩
        ⟨[], [], [], [], 0, 0⟩ "Some text\nSome more text"
        (by decide) (by decide)).mp hr),
   (response_iff_processed_line
      ⟨"user@domain.com", none, MessagePayload.plaintext "thanks"⟩
      ⟨[], [], [], [], 0, 0⟩ "thanks" (by decide) (by decide)).mpr
     (by decide)⟩

/-- A plain-text message that does not carry the control bot's X-Loop
marker is processed through its body lines. -/
theorem controlProcess_plaintext (f body : String) (st : PTSState) :
    controlProcess ⟨f, none, MessagePayload.plaintext body⟩ st =
      processLines f st (bodyLines body) := rfl

/-- Processing a body scanned as a single non-quit command executes
exactly that command, echoes the line and appends the command's
output. -/
theorem processLines_single_cmd (f : String) (st : PTSState)
    (line : String) (c : Command)
    (hne : strIsEmpty (strTrim line) = false)
    (hcm : strStartsWith (strTrim line) "#" = false)
    (hp : parseCommand f (strTrim line) = some c) (hq : ¬ c = Command.quit) :
    processLines f st [line] =
      ⟨(execCommand st c).1, (execCommand st c).2.1,
       some ((">" ++ strTrim line) :: (execCommand st c).2.2), [c]⟩ := by
  unfold processLines
  rw [scanLines_single_cmd f line c hne hcm hp hq]
  simp [processEntries, runEntries]

/-- Execution of a subscribe command for an existing source package by
a not-yet-subscribed address: a pending confirmation is stored, the
confirmation mail is sent, and nothing else changes. -/
theorem execSubscribe_fresh (st : PTSState) (p e : String)
    (hsrc : p ∈ st.sourcePackages) (hnsub : (p, e) ∉ st.subscriptions) :
    execSubscribe st p e =
      ({ st with
          confirmations :=
            ⟨newKey st.nextKeyId, Command.subscribe p e, st.today⟩ ::
              st.confirmations,
          nextKeyId := st.nextKeyId + 1 },
       [⟨e, confirmationMailBody (newKey st.nextKeyId)⟩],
       ["A confirmation mail has been sent to " ++ e]) := by
  unfold execSubscribe
  rw [if_neg hnsub, if_pos hsrc]
  rfl

/-- C1: a subscribe command for an existing source package creates the
subscription only through the two-phase confirmation workflow: after
the subscribe command is processed the address is not yet subscribed,
a confirmation mail carrying a 'CONFIRM key' line is sent to the
address being subscribed, and only once a later message carrying a
confirm command with that key is processed does the address become
subscribed to the package. -/
theorem subscribe_two_phase (st : PTSState) (f body line p e : String)
    (hbl : bodyLines body = [line])
    (hne : strIsEmpty (strTrim line) = false)
    (hcm : strStartsWith (strTrim line) "#" = false)
    (hp : parseCommand f (strTrim line) = some (Command.subscribe p e))
    (hsrc : p ∈ st.sourcePackages)
    (hnsub : (p, e) ∉ st.subscriptions) :
    (p, e) ∉ (controlProcess ⟨f, none, MessagePayload.plaintext body⟩
        st).state.subscriptions ∧
    (∃ m ∈ (controlProcess ⟨f, none, MessagePayload.plaintext body⟩ st).mails,
      m.recipient = e ∧ ("CONFIRM " ++ newKey st.nextKeyId) ∈ m.body) ∧
    (∀ f2 body2 line2 : String,
      bodyLines body2 = [line2] →
      strIsEmpty (strTrim line2) = false →
      strStartsWith (strTrim line2) "#" = false →
      parseCommand f2 (strTrim line2) =
        some (Command.confirm (newKey st.nextKeyId)) →
      (p, e) ∈ (controlProcess ⟨f2, none, MessagePayload.plaintext body2⟩
          (controlProcess ⟨f, none, MessagePayload.plaintext body⟩
            st).state).state.subscriptions) := by
  have hq1 : ¬ Command.subscribe p e = Command.quit := fun h =>
    Command.noConfusion h
  have hex : execCommand st (Command.subscribe p e) =
      ({ st with
          confirmations :=
            ⟨newKey st.nextKeyId, Command.subscribe p e, st.today⟩ ::
              st.confirmations,
          nextKeyId := st.nextKeyId + 1 },
       [⟨e, confirmationMailBody (newKey st.nextKeyId)⟩],
       ["A confirmation mail has been sent to " ++ e]) :=
    execSubscribe_fresh st p e hsrc hnsub
  have h1 : controlProcess ⟨f, none, MessagePayload.plaintext body⟩ st =
      ⟨{ st with
          confirmations :=
            ⟨newKey st.nextKeyId, Command.subscribe p e, st.today⟩ ::
              st.confirmations,
          nextKeyId := st.nextKeyId + 1 },
       [⟨e, confirmationMailBody (newKey st.nextKeyId)⟩],
       some ((">" ++ strTrim line) ::
         ["A confirmation mail has been sent to " ++ e]),
       [Command.subscribe p e]⟩ := by
    rw [controlProcess_plaintext, hbl,
        processLines_single_cmd f st line _ hne hcm hp hq1, hex]
  rw [h1]
  refine ⟨hnsub, ⟨⟨e, confirmationMailBody (newKey st.nextKeyId)⟩,
    by simp, rfl, by simp [confirmationMailBody]⟩, ?_⟩
  intro f2 body2 line2 hbl2 hne2 hcm2 hp2
  have hq2 : ¬ Command.confirm (newKey st.nextKeyId) = Command.quit :=
    fun h => Command.noConfusion h
  rw [controlProcess_plaintext, hbl2,
      processLines_single_cmd f2 _ line2 _ hne2 hcm2 hp2 hq2]
  have hfind :
      (CommandConfirmation.mk (newKey st.nextKeyId)
          (Command.subscribe p e) st.today :: st.confirmations).find?
        (fun c2 => c2.key == newKey st.nextKeyId) =
      some ⟨newKey st.nextKeyId, Command.subscribe p e, st.today⟩ := by
    simp [List.find?]
  have hxc : execCommand
      { st with
          confirmations :=
            ⟨newKey st.nextKeyId, Command.subscribe p e, st.today⟩ ::
              st.confirmations,
          nextKeyId := st.nextKeyId + 1 }
      (Command.confirm (newKey st.nextKeyId)) =
      (⟨st.sourcePackages, st.binaryPackages, (p, e) :: st.subscriptions,
        (CommandConfirmation.mk (newKey st.nextKeyId)
            (Command.subscribe p e) st.today :: st.confirmations).filter
          (fun c2 => c2.key ≠ newKey st.nextKeyId),
        st.nextKeyId + 1, st.today⟩,
       [],
       [e ++ " has been subscribed to " ++ p]) := by
    show execConfirm _ (newKey st.nextKeyId) = _
    have hlt : ¬ st.today + PTS_CONFIRMATION_EXPIRATION_DAYS < st.today := by
      omega
    simp [execConfirm, hfind, hlt, runConfirmedCommand, hnsub]
  rw [hxc]
  exact List.mem_cons_self _ _

/-- C1 witness: the concrete subscribe-then-confirm story of the
repository's test, run from an empty subscription state. -/
theorem subscribe_two_phase_witness :
    (("dummy-package", "dummy-user@domain.com") ∉
      (controlProcess
          ⟨"dummy-user@domain.com", none, MessagePayload.plaintext
            "subscribe dummy-package dummy-user@domain.com"⟩
          ⟨["dummy-package"], [], [], [], 0, 0⟩).state.subscriptions) ∧
    (∃ m ∈ (controlProcess
          ⟨"dummy-user@domain.com", none, MessagePayload.plaintext
            "subscribe dummy-package dummy-user@domain.com"⟩
          ⟨["dummy-package"], [], [], [], 0, 0⟩).mails,
      m.recipient = "dummy-user@domain.com" ∧
        ("CONFIRM " ++ newKey 0) ∈ m.body) ∧
    (∀ f2 body2 line2 : String,
      bodyLines body2 = [line2] →
      strIsEmpty (strTrim line2) = false →
      strStartsWith (strTrim line2) "#" = false →
      parseCommand f2 (strTrim line2) = some (Command.confirm (newKey 0)) →
      ("dummy-package", "dummy-user@domain.com") ∈
        (controlProcess ⟨f2, none, MessagePayload.plaintext body2⟩
          (controlProcess
            ⟨"dummy-user@domain.com", none, MessagePayload.plaintext
              "subscribe dummy-package dummy-user@domain.com"⟩
            ⟨["dummy-package"], [], [], [], 0, 0⟩).state).state.subscriptions) :=
  subscribe_two_phase ⟨["dummy-package"], [], [], [], 0, 0⟩
    "dummy-user@domain.com"
    "subscribe dummy-package dummy-user@domain.com"
    "subscribe dummy-package dummy-user@domain.com"
    "dummy-package" "dummy-user@domain.com"
    (by decide) (by decide) (by decide) (by decide) (by decide) (by decide)

/-- C2: a confirm command whose key names a confirmation created more
than PTS_CONFIRMATION_EXPIRATION_DAYS days in the past fails: the
response reports 'Confirmation failed' and the whole subscription state
is left unchanged. -/
theorem confirm_expired_fails (st : PTSState) (f body line key : String)
    (conf : CommandConfirmation)
    (hbl : bodyLines body = [line])
    (hne : strIsEmpty (strTrim line) = false)
    (hcm : strStartsWith (strTrim line) "#" = false)
    (hp : parseCommand f (strTrim line) = some (Command.confirm key))
    (hfind : st.confirmations.find? (fun c2 => c2.key == key) = some conf)
    (hexp : conf.dateCreated + PTS_CONFIRMATION_EXPIRATION_DAYS < st.today) :
    (controlProcess ⟨f, none, MessagePayload.plaintext body⟩ st).state = st ∧
    ∃ out, (controlProcess ⟨f, none, MessagePayload.plaintext body⟩
        st).response = some out ∧ "Confirmation failed" ∈ out := by
  have hq : ¬ Command.confirm key = Command.quit := fun h =>
    Command.noConfusion h
  have hex : execCommand st (Command.confirm key) =
      (st, [], ["Confirmation failed"]) := by
    show execConfirm st key = _
    simp only [execConfirm, hfind]
    rw [if_pos hexp]
  rw [controlProcess_plaintext, hbl,
      processLines_single_cmd f st line _ hne hcm hp hq, hex]
  exact ⟨rfl, _, rfl, by simp⟩

/-- C2 witness: the test's expired confirmation, aged one day past the
expiration window, fails to subscribe the user. -/
theorem confirm_expired_fails_witness :
    (controlProcess
        ⟨"dummy-user@domain.com", none,
         MessagePayload.plaintext "confirm key-0"⟩
        ⟨["dummy-package"], [], [],
         [⟨"key-0", Command.subscribe "dummy-package" "dummy-user@domain.com",
           0⟩], 1, PTS_CONFIRMATION_EXPIRATION_DAYS + 1⟩).state =
      ⟨["dummy-package"], [], [],
       [⟨"key-0", Command.subscribe "dummy-package" "dummy-user@domain.com",
         0⟩], 1, PTS_CONFIRMATION_EXPIRATION_DAYS + 1⟩ ∧
    ∃ out, (controlProcess
        ⟨"dummy-user@domain.com", none,
         MessagePayload.plaintext "confirm key-0"⟩
        ⟨["dummy-package"], [], [],
         [⟨"key-0", Command.subscribe "dummy-package" "dummy-user@domain.com",
           0⟩], 1, PTS_CONFIRMATION_EXPIRATION_DAYS + 1⟩).response =
      some out ∧ "Confirmation failed" ∈ out :=
  confirm_expired_fails
    ⟨["dummy-package"], [], [],
     [⟨"key-0", Command.subscribe "dummy-package" "dummy-user@domain.com", 0⟩],
     1, PTS_CONFIRMATION_EXPIRATION_DAYS + 1⟩
    "dummy-user@domain.com" "confirm key-0" "confirm key-0" "key-0"
    ⟨"key-0", Command.subscribe "dummy-package" "dummy-user@domain.com", 0⟩
    (by decide) (by decide) (by decide) (by decide) (by decide) (by decide)

/-- C10: a subscribe command that appears twice in one message body in
equivalent forms (both normalizing to the same package and email) is
executed only once: the executed command list holds it a single time
and a single confirmation mail is produced. -/
theorem duplicate_command_executed_once (st : PTSState)
    (f body l1 l2 p e : String)
    (hbl : bodyLines body = [l1, l2])
    (hne1 : strIsEmpty (strTrim l1) = false)
    (hcm1 : strStartsWith (strTrim l1) "#" = false)
    (hp1 : parseCommand f (strTrim l1) = some (Command.subscribe p e))
    (hne2 : strIsEmpty (strTrim l2) = false)
    (hcm2 : strStartsWith (strTrim l2) "#" = false)
    (hp2 : parseCommand f (strTrim l2) = some (Command.subscribe p e))
    (hsrc : p ∈ st.sourcePackages) (hnsub : (p, e) ∉ st.subscriptions) :
    (controlProcess ⟨f, none, MessagePayload.plaintext body⟩ st).executed =
      [Command.subscribe p e] ∧
    (controlProcess ⟨f, none, MessagePayload.plaintext body⟩ st).mails =
      [⟨e, confirmationMailBody (newKey st.nextKeyId)⟩] := by
  have hq : ¬ Command.subscribe p e = Command.quit := fun h =>
    Command.noConfusion h
  have hscan : scanLines f (bodyLines body) 0 =
      [⟨strTrim l1, some (Command.subscribe p e)⟩,
       ⟨strTrim l2, some (Command.subscribe p e)⟩] := by
    rw [hbl, scanLines_cons_cmd f l1 [l2] 0 _ hne1 hcm1 hp1 hq,
        scanLines_single_cmd f l2 _ hne2 hcm2 hp2 hq]
  have hex : execCommand st (Command.subscribe p e) =
      ({ st with
          confirmations :=
            ⟨newKey st.nextKeyId, Command.subscribe p e, st.today⟩ ::
              st.confirmations,
          nextKeyId := st.nextKeyId + 1 },
       [⟨e, confirmationMailBody (newKey st.nextKeyId)⟩],
       ["A confirmation mail has been sent to " ++ e]) :=
    execSubscribe_fresh st p e hsrc hnsub
  rw [controlProcess_plaintext]
  unfold processLines
  rw [hscan]
  simp [processEntries, runEntries, hex]

/-- C10 witness: the test's message with the same subscribe command in
its short and its spelled-out form produces one execution and one
confirmation mail. -/
theorem duplicate_command_executed_once_witness :
    (controlProcess
        ⟨"dummy-user@domain.com", none, MessagePayload.plaintext
          "subscribe dummy-package\nsubscribe dummy-package dummy-user@domain.com"⟩
        ⟨["dummy-package"], [], [], [], 0, 0⟩).executed =
      [Command.subscribe "dummy-package" "dummy-user@domain.com"] ∧
    (controlProcess
        ⟨"dummy-user@domain.com", none, MessagePayload.plaintext
          "subscribe dummy-package\nsubscribe dummy-package dummy-user@domain.com"⟩
        ⟨["dummy-package"], [], [], [], 0, 0⟩).mails =
      [⟨"dummy-user@domain.com", confirmationMailBody (newKey 0)⟩] :=
  duplicate_command_executed_once ⟨["dummy-package"], [], [], [], 0, 0⟩
    "dummy-user@domain.com"
    "subscribe dummy-package\nsubscribe dummy-package dummy-user@domain.com"
    "subscribe dummy-package"
    "subscribe dummy-package dummy-user@domain.com"
    "dummy-package" "dummy-user@domain.com"
    (by decide) (by decide) (by decide) (by decide) (by decide) (by decide)
    (by decide) (by decide) (by decide)

/-- C5: under the bug-tracker headers (X-Loop owner@bugs.debian.org
together with an X-Debian-PR-Message header) the rule table classifies
the message 'bts-control' when the X-Debian-PR-Message value starts
with 'transcript' and 'bts' otherwise, and the dispatch forwards the
message, tagged with an X-PTS-Keyword header equal to the assigned
keyword, to exactly the subscribers of the package holding that
keyword. -/
theorem dispatch_bts_classification (m : DispatchMessage) (pkg : String)
    (subs : List Subscriber) (pr : String)
    (hpr : m.getHeader "X-Debian-PR-Message" = some pr)
    (hloop : m.getHeader "X-Loop" = some "owner@bugs.debian.org") :
    ∃ kw : String, kw = (if strStartsWith pr "transcript" then "bts-control"
        else "bts") ∧
      classifyMessage m = some kw ∧
      runDispatch m pkg subs =
        (subs.filter (fun s => s.package = pkg ∧ kw ∈ s.keywords)).map
          (fun s => ⟨s.email, m.headers ++ [("X-PTS-Keyword", kw)]⟩) := by
  refine ⟨_, rfl, ?_, ?_⟩
  · simp [classifyMessage, hpr, hloop]
  · have hcl : classifyMessage m =
        some (if strStartsWith pr "transcript" then "bts-control"
          else "bts") := by
      simp [classifyMessage, hpr, hloop]
    simp [runDispatch, dispatchKeyword, hcl]

/-- C5 witness: the test's bts-control message (X-Debian-PR-Message a
transcript, X-Loop the bug tracker owner) is classified 'bts-control'
and forwarded, tagged, to the subscriber holding that keyword. -/
theorem dispatch_bts_classification_witness :
    ∃ kw : String, kw = (if strStartsWith "transcript of something" "transcript"
        then "bts-control" else "bts") ∧
      classifyMessage
          ⟨[("From", "Real Name <dummy-email@domain.com>"),
            ("Subject", "Some subject"),
            ("X-Debian-PR-Message", "transcript of something"),
            ("X-Loop", "owner@bugs.debian.org")],
           ["message content"]⟩ = some kw ∧
      runDispatch
          ⟨[("From", "Real Name <dummy-email@domain.com>"),
            ("Subject", "Some subject"),
            ("X-Debian-PR-Message", "transcript of something"),
            ("X-Loop", "owner@bugs.debian.org")],
           ["message content"]⟩ "dummy-package"
          [⟨"user@domain.com", "dummy-package", ["bts-control"]⟩] =
        (([⟨"user@domain.com", "dummy-package", ["bts-control"]⟩] :
            List Subscriber).filter
            (fun s => s.package = "dummy-package" ∧ kw ∈ s.keywords)).map
          (fun s => ⟨s.email,
            [("From", "Real Name <dummy-email@domain.com>"),
             ("Subject", "Some subject"),
             ("X-Debian-PR-Message", "transcript of something"),
             ("X-Loop", "owner@bugs.debian.org")] ++
              [("X-PTS-Keyword", kw)]⟩) :=
  dispatch_bts_classification
    ⟨[("From", "Real Name <dummy-email@domain.com>"),
      ("Subject", "Some subject"),
      ("X-Debian-PR-Message", "transcript of something"),
      ("X-Loop", "owner@bugs.debian.org")],
     ["message content"]⟩ "dummy-package"
    [⟨"user@domain.com", "dummy-package", ["bts-control"]⟩]
    "transcript of something" (by decide) (by decide)

/-- C6: for an archive (X-DAK) message that is not a bug-tracker
message, the rule table classifies by Subject and body: a Subject
starting with 'Accepted' yields 'upload-source' when the body lists
.dsc files and 'upload-binary' otherwise, any other Subject yields
'archive'; the dispatch forwards the message, tagged with X-PTS-Keyword
equal to the assigned keyword, to exactly the subscribers of the
package holding that keyword. -/
theorem dispatch_dak_classification (m : DispatchMessage) (pkg : String)
    (subs : List Subscriber) (dak subj : String)
    (hdak : m.getHeader "X-DAK" = some dak)
    (hsubj : m.getHeader "Subject" = some subj)
    (hnopr : m.getHeader "X-Debian-PR-Message" = none) :
    ∃ kw : String, kw = (if strStartsWith subj "Accepted" then
        (if hasDscFile m.body then "upload-source" else "upload-binary")
        else "archive") ∧
      classifyMessage m = some kw ∧
      runDispatch m pkg subs =
        (subs.filter (fun s => s.package = pkg ∧ kw ∈ s.keywords)).map
          (fun s => ⟨s.email, m.headers ++ [("X-PTS-Keyword", kw)]⟩) := by
  have hcl : classifyMessage m =
      some (if strStartsWith subj "Accepted" then
        (if hasDscFile m.body then "upload-source" else "upload-binary")
        else "archive") := by
    rcases hl : m.getHeader "X-Loop" with _ | loopv
    · simp only [classifyMessage, hnopr, hl, classifyDak, hdak, hsubj]
      split <;> rfl
    · simp only [classifyMessage, hnopr, hl, classifyDak, hdak, hsubj]
      split <;> rfl
  exact ⟨_, rfl, hcl, by simp [runDispatch, dispatchKeyword, hcl]⟩

/-- C6 witness: the test's accepted-upload message with a body listing
.dsc files is classified 'upload-source' and forwarded, tagged, to the
subscriber holding that keyword. -/
theorem dispatch_dak_classification_witness :
    ∃ kw : String, kw = (if strStartsWith "Accepted 0.1 in unstable" "Accepted" then
        (if hasDscFile ["Files", "checksum lib.dsc", "check lib2.dsc"]
          then "upload-source" else "upload-binary")
        else "archive") ∧
      classifyMessage
          ⟨[("From", "Real Name <dummy-email@domain.com>"),
            ("Subject", "Accepted 0.1 in unstable"), ("X-DAK", "DAK")],
           ["Files", "checksum lib.dsc", "check lib2.dsc"]⟩ = some kw ∧
      runDispatch
          ⟨[("From", "Real Name <dummy-email@domain.com>"),
            ("Subject", "Accepted 0.1 in unstable"), ("X-DAK", "DAK")],
           ["Files", "checksum lib.dsc", "check lib2.dsc"]⟩ "dummy-package"
          [⟨"user@domain.com", "dummy-package", ["upload-source"]⟩] =
        (([⟨"user@domain.com", "dummy-package", ["upload-source"]⟩] :
            List Subscriber).filter
            (fun s => s.package = "dummy-package" ∧ kw ∈ s.keywords)).map
          (fun s => ⟨s.email,
            [("From", "Real Name <dummy-email@domain.com>"),
             ("Subject", "Accepted 0.1 in unstable"), ("X-DAK", "DAK")] ++
              [("X-PTS-Keyword", kw)]⟩) :=
  dispatch_dak_classification
    ⟨[("From", "Real Name <dummy-email@domain.com>"),
      ("Subject", "Accepted 0.1 in unstable"), ("X-DAK", "DAK")],
     ["Files", "checksum lib.dsc", "check lib2.dsc"]⟩ "dummy-package"
    [⟨"user@domain.com", "dummy-package", ["upload-source"]⟩]
    "DAK" "Accepted 0.1 in unstable" (by decide) (by decide) (by decide)

end PTS
